import Mathlib

/-!
Verification development for the Telephone Billing Management System
(`src/main.py`).

The development shallowly embeds the two cores of the program:

* the billing engine — the rate-plan table (`RATE_PLANS`,
  `DEFAULT_RATE_PER_SECOND`), call logging with cost computation
  (`log_call`), and bill aggregation with upsert semantics
  (`generate_bill`);
* the selection-disambiguation state machine of the customer tab —
  the Tkinter handlers `clear_customer_entries`,
  `execute_single_click_delete`, `handle_treeview_select` and
  `handle_double_click_update`, together with the `after`/`after_cancel`
  timer discipline, modelled as a step function over an explicit
  application state.

SQLite tables become lists of records; `AUTOINCREMENT` ids become
explicit counters; `REAL` money amounts are modelled as rationals; the
SQL `LIKE` operator is modelled by `likeMatch` (ASCII-case-insensitive,
with the `%` and `_` wildcards, exactly as SQLite evaluates the pattern
`f"{billing_period}%"`).  Fallible database operations are driven by an
explicit fault oracle `fail : Nat → Bool` giving, per internal database
step, whether the underlying store raises; the Python code catches any
such exception, shows an error box, and closes the connection without
committing, which rolls the transaction back.
-/

namespace TelephoneBilling

/-- SQLite `LIKE` pattern matching over lists of characters, as used by
`generate_bill`'s `start_time LIKE ?` filter: `%` matches any sequence,
`_` matches any single character, and plain characters compare
ASCII-case-insensitively. -/
def likeMatch : List Char → List Char → Bool
  | [], s => s.isEmpty
  | p :: ps, s =>
    if p = '%' then
      (List.range (s.length + 1)).any fun i => likeMatch ps (s.drop i)
    else
      match s with
      | [] => false
      | c :: cs =>
        if p = '_' then likeMatch ps cs
        else (p.toLower == c.toLower) && likeMatch ps cs

/-- Rate plans of `src/main.py` lines 11–15: name ↦ dollars per second. -/
def RATE_PLANS : List (String × ℚ) :=
  [("Standard", 1/20), ("Premium", 3/100), ("Business", 2/25)]

/-- Default rate (`src/main.py` line 17): `RATE_PLANS["Standard"]`. -/
def DEFAULT_RATE_PER_SECOND : ℚ := 1/20

/-- Row of the `Customers` table. -/
structure Customer where
  customer_id : Nat
  phone_number : String
  name : String
  address : String
  rate_plan : String
deriving DecidableEq

/-- Row of the `CallLogs` table. -/
structure CallLog where
  call_id : Nat
  customer_id : Nat
  callee_number : String
  start_time : String
  duration_seconds : Int
  cost : ℚ
deriving DecidableEq

/-- Row of the `BillHistory` table. -/
structure Bill where
  bill_id : Nat
  customer_id : Nat
  billing_period : String
  total_calls : Nat
  total_charge : ℚ
  date_generated : String
deriving DecidableEq

/-- The SQLite database state: the three tables (in rowid order) plus the
`AUTOINCREMENT` counters for the two tables the embedded operations
insert into. -/
structure DB where
  customers : List Customer
  callLogs : List CallLog
  billHistory : List Bill
  nextCallId : Nat
  nextBillId : Nat
deriving DecidableEq

/-- Fault oracle meaning "no database step raises". -/
def noFail : Nat → Bool := fun _ => false

/-- Result of `log_call` (`src/main.py` lines 130–153): `true` iff the
call was logged.  The new database is returned alongside. -/
def log_call (phone_number callee_number : String) (duration_seconds : Int)
    (now : String) (db : DB) (fail : Nat → Bool) : Bool × DB :=
  -- step 0: SELECT customer_id, rate_plan FROM Customers WHERE phone_number = ?
  if fail 0 then (false, db) else
  match (db.customers.filter (fun cu => cu.phone_number == phone_number)).head? with
  | none => (false, db)
  | some cu =>
    let rate := (RATE_PLANS.lookup cu.rate_plan).getD DEFAULT_RATE_PER_SECOND
    let call_cost := (duration_seconds : ℚ) * rate
    -- step 1: INSERT INTO CallLogs ... plus commit
    if fail 1 then (false, db) else
    (true,
     { db with
        callLogs := db.callLogs ++
          [{ call_id := db.nextCallId, customer_id := cu.customer_id,
             callee_number := callee_number, start_time := now,
             duration_seconds := duration_seconds, cost := call_cost }],
        nextCallId := db.nextCallId + 1 })

/-- Call records matched by `generate_bill`'s aggregate query
(`WHERE customer_id = ? AND start_time LIKE ?` with the pattern
`f"{billing_period}%"`). -/
def matchingCalls (customer_id : Nat) (billing_period : String) (db : DB) : List CallLog :=
  db.callLogs.filter fun r =>
    r.customer_id == customer_id &&
      likeMatch (billing_period.data ++ ['%']) r.start_time.data

/-- Predicate of `generate_bill`'s existence query
(`WHERE customer_id = ? AND billing_period = ?`). -/
def billKey (customer_id : Nat) (billing_period : String) (b : Bill) : Bool :=
  b.customer_id == customer_id && b.billing_period == billing_period

/-- Bill rows matched by `generate_bill`'s existence query. -/
def billsFor (customer_id : Nat) (billing_period : String) (db : DB) : List Bill :=
  db.billHistory.filter (billKey customer_id billing_period)

/-- Effect on one `BillHistory` row of `generate_bill`'s
`UPDATE BillHistory SET total_calls = ?, total_charge = ?,
date_generated = ? WHERE bill_id = ?` statement. -/
def updBill (total_calls : Nat) (total_charge : ℚ) (now : String) (target : Nat)
    (x : Bill) : Bill :=
  if x.bill_id == target then
    { x with total_calls := total_calls, total_charge := total_charge,
             date_generated := now }
  else x

/-- Outcome of `generate_bill`.  The Python function communicates these
through message boxes; `customerNotFound` belongs to the specification's
error taxonomy (§7) and is included so that its absence from the code's
behaviour is expressible — `generate_bill` never produces it. -/
inductive BillResult where
  | noActivity
  | generated (bill_id : Nat) (total_calls : Nat) (total_charge : ℚ)
  | updated (bill_id : Nat) (total_calls : Nat) (total_charge : ℚ)
  | storageFailure
  | customerNotFound
deriving DecidableEq

/-- Projection to the reported bill identity and totals, when the run
produced or refreshed a bill. -/
def BillResult.info : BillResult → Option (Nat × Nat × ℚ)
  | .generated i n q => some (i, n, q)
  | .updated i n q => some (i, n, q)
  | _ => none

/-- Embedding of `generate_bill` (`src/main.py` lines 155–201).  The
fault-oracle steps are: 0 = `sqlite3.connect`, 1 = the SUM/COUNT
aggregate query, 2 = the `BillHistory` existence query, 3 = the
`UPDATE`/`INSERT` statement, 4 = `commit`.  A raise at any step is
caught, reported, and the connection closed without a commit, so the
database is left as it was. -/
def generate_bill (customer_id : Nat) (billing_period : String) (now : String)
    (db : DB) (fail : Nat → Bool) : BillResult × DB :=
  if fail 0 then (.storageFailure, db) else
  if fail 1 then (.storageFailure, db) else
  let matching := matchingCalls customer_id billing_period db
  let total_calls := matching.length
  let total_charge := (matching.map CallLog.cost).sum
  if total_calls == 0 then (.noActivity, db) else
  if fail 2 then (.storageFailure, db) else
  match (billsFor customer_id billing_period db).head? with
  | some b =>
    if fail 3 then (.storageFailure, db) else
    if fail 4 then (.storageFailure, db) else
    (.updated b.bill_id total_calls total_charge,
     { db with
        billHistory :=
          db.billHistory.map (updBill total_calls total_charge now b.bill_id) })
  | none =>
    if fail 3 then (.storageFailure, db) else
    if fail 4 then (.storageFailure, db) else
    (.generated db.nextBillId total_calls total_charge,
     { db with
        billHistory := db.billHistory ++
          [{ bill_id := db.nextBillId, customer_id := customer_id,
             billing_period := billing_period, total_calls := total_calls,
             total_charge := total_charge, date_generated := now }],
        nextBillId := db.nextBillId + 1 })

/- ## Selection-disambiguation state machine (customer tab) -/

/-- Values of a customer row as shown in the Treeview
(`('ID', 'Phone', 'Name', 'Address', 'Rate')`); a displayed row always
carries all five values, so the Python truthiness test `if values:`
succeeds on it. -/
structure Row where
  id : Nat
  phone : String
  name : String
  address : String
  rate : String
deriving DecidableEq

/-- High-level intents of the disambiguator: entering delete mode (the
single-click action) and entering update mode (the double-click
action). -/
inductive Intent where
  | deleteIntent (rowId : Nat)
  | updateIntent (rowId : Nat)
deriving DecidableEq

/-- State of the `BillingApp` customer tab that the selection handlers
read and write.  `timer` is the `self.timer` field (the handle stored by
`self.master.after`); `scheduled` is the set of callbacks currently
pending inside Tk's event loop (a handle is removed when it fires or is
cancelled); `nextHandle` generates fresh handles; `treeSel` is the
Treeview's current selection. -/
structure AppState where
  timer : Option Nat
  scheduled : List Nat
  nextHandle : Nat
  selected_customer_id : Nat
  treeSel : Option Row
  phone_entry : String
  name_entry : String
  address_entry : String
  rate_plan_var : String
  phone_disabled : Bool
  update_btn_enabled : Bool
  delete_btn_enabled : Bool
  add_btn_enabled : Bool
deriving DecidableEq

/-- Embedding of `BillingApp.clear_customer_entries`
(`src/main.py` lines 325–350): cancel any pending timer, reset the
selected id, clear the entries, reset the buttons to Add mode, and clear
the Treeview selection. -/
def clear_customer_entries (s : AppState) : AppState :=
  let s1 :=
    match s.timer with
    | some h => { s with scheduled := s.scheduled.erase h, timer := none }
    | none => s
  { s1 with
      selected_customer_id := 0,
      phone_disabled := false, phone_entry := "", name_entry := "",
      address_entry := "", rate_plan_var := "Standard",
      update_btn_enabled := false, delete_btn_enabled := false,
      add_btn_enabled := true,
      treeSel := none }

/-- Embedding of `BillingApp.execute_single_click_delete`
(`src/main.py` lines 352–380), the timer callback: with a selected row
it records the row's id, clears the entries, switches the buttons to
Delete mode (this is the emitted `deleteIntent`), and nulls the timer
field; with no selection it falls back to `clear_customer_entries`. -/
def execute_single_click_delete (s : AppState) : AppState × List Intent :=
  match s.treeSel with
  | none => (clear_customer_entries s, [])
  | some r =>
    ({ s with
        selected_customer_id := r.id,
        phone_disabled := false, phone_entry := "", name_entry := "",
        address_entry := "", rate_plan_var := "Standard",
        update_btn_enabled := false, delete_btn_enabled := true,
        add_btn_enabled := true,
        timer := none },
     [Intent.deleteIntent r.id])

/-- Embedding of `BillingApp.handle_treeview_select`
(`src/main.py` lines 382–398): with no selection it clears; otherwise it
cancels any previously stored timer and schedules a fresh single-click
callback, storing its handle. -/
def handle_treeview_select (s : AppState) : AppState × List Intent :=
  match s.treeSel with
  | none => (clear_customer_entries s, [])
  | some _ =>
    let s1 :=
      match s.timer with
      | some h => { s with scheduled := s.scheduled.erase h }
      | none => s
    ({ s1 with
        timer := some s1.nextHandle,
        scheduled := s1.scheduled ++ [s1.nextHandle],
        nextHandle := s1.nextHandle + 1 },
     [])

/-- Embedding of `BillingApp.handle_double_click_update`
(`src/main.py` lines 402–445): cancel the stored single-click timer,
then — if the click identifies a row — populate the form from it, lock
the phone entry, and switch the buttons to Update mode (the emitted
`updateIntent`); if no row is under the click, fall back to
`clear_customer_entries`. -/
def handle_double_click_update (rowUnder : Option Row) (s : AppState) :
    AppState × List Intent :=
  let s1 :=
    match s.timer with
    | some h => { s with scheduled := s.scheduled.erase h, timer := none }
    | none => s
  match rowUnder with
  | none => (clear_customer_entries s1, [])
  | some r =>
    ({ s1 with
        selected_customer_id := r.id,
        phone_entry := r.phone, name_entry := r.name,
        address_entry := r.address, rate_plan_var := r.rate,
        phone_disabled := true,
        update_btn_enabled := true, delete_btn_enabled := true,
        add_btn_enabled := false },
     [Intent.updateIntent r.id])

/-- Raw events delivered to the handlers.  `select` is the
`<<TreeviewSelect>>` binding firing after the widget's selection changed
to `sel`; `doubleClick` is the `<Double-1>` binding with
`identify_row(event.y)` returning `rowUnder`; `clearClick` is the
"Clear Selection" button; `timerFire` is Tk delivering the scheduled
`after` callback with handle `h` (a cancelled handle never fires, so a
`timerFire` on an unscheduled handle is a no-op). -/
inductive Event where
  | select (sel : Option Row)
  | doubleClick (rowUnder : Option Row)
  | clearClick
  | timerFire (h : Nat)
deriving DecidableEq

/-- One event step of the customer-tab state machine. -/
def step (s : AppState) (e : Event) : AppState × List Intent :=
  match e with
  | .select sel => handle_treeview_select { s with treeSel := sel }
  | .doubleClick rowUnder => handle_double_click_update rowUnder s
  | .clearClick => (clear_customer_entries s, [])
  | .timerFire h =>
    if h ∈ s.scheduled then
      execute_single_click_delete { s with scheduled := s.scheduled.erase h }
    else (s, [])

/-- Processing of an event sequence, collecting the emitted intents. -/
def processEvents (s : AppState) : List Event → AppState × List Intent
  | [] => (s, [])
  | e :: es =>
    let r1 := step s e
    let r2 := processEvents r1.1 es
    (r2.1, r1.2 ++ r2.2)

/-- State of the customer tab after `BillingApp.__init__`
(`self.timer = None`, `selected_customer_id` 0, empty entries, rate-plan
dropdown on the first plan, Update/Delete disabled). -/
def initialAppState : AppState :=
  { timer := none, scheduled := [], nextHandle := 0,
    selected_customer_id := 0, treeSel := none,
    phone_entry := "", name_entry := "", address_entry := "",
    rate_plan_var := "Standard", phone_disabled := false,
    update_btn_enabled := false, delete_btn_enabled := false,
    add_btn_enabled := true }

/-- The timer-bookkeeping invariant of claim C10: the set of pending
event-loop callbacks is exactly what `self.timer` records — at most one
callback pending, and the field is `none` exactly when none is. -/
def timerInv (s : AppState) : Prop :=
  s.scheduled = s.timer.toList

/- ## Helper lemmas: characters and LIKE matching -/

theorem charOfNat_toNat_small (n : Nat) (h1 : n < 55296) : (Char.ofNat n).toNat = n := by
  rw [Char.ofNat, dif_pos (Or.inl h1)]
  simp [Char.ofNatAux, Char.toNat, UInt32.toNat, BitVec.toNat_ofNatLt]

theorem isUpper_iff (ch : Char) : ch.isUpper = true ↔ (65 ≤ ch.toNat ∧ ch.toNat ≤ 90) := by
  simp [Char.isUpper, Char.toNat, UInt32.le_def, BitVec.le_def, UInt32.toNat]

theorem isLower_iff (ch : Char) : ch.isLower = true ↔ (97 ≤ ch.toNat ∧ ch.toNat ≤ 122) := by
  simp [Char.isLower, Char.toNat, UInt32.le_def, BitVec.le_def, UInt32.toNat]

theorem toLower_eq_self {ch : Char} (h : ¬(65 ≤ ch.toNat ∧ ch.toNat ≤ 90)) :
    ch.toLower = ch := by
  rw [Char.toLower, if_neg]
  exact fun hh => h hh

theorem toLower_beq_of_not_alpha {p : Char} (hp : p.isAlpha = false) (c : Char) :
    (p.toLower == c.toLower) = (p == c) := by
  rw [Char.isAlpha, Bool.or_eq_false_iff] at hp
  obtain ⟨hu, hl⟩ := hp
  have hu' : ¬(65 ≤ p.toNat ∧ p.toNat ≤ 90) := by
    intro hh; rw [(isUpper_iff p).mpr hh] at hu; simp at hu
  have hl' : ¬(97 ≤ p.toNat ∧ p.toNat ≤ 122) := by
    intro hh; rw [(isLower_iff p).mpr hh] at hl; simp at hl
  rw [toLower_eq_self hu']
  by_cases hc : 65 ≤ c.toNat ∧ c.toNat ≤ 90
  · have hlow : (c.toLower).toNat = c.toNat + 32 := by
      rw [Char.toLower, if_pos hc]
      exact charOfNat_toNat_small _ (by omega)
    have h1 : p ≠ c.toLower := by
      intro e; apply hl'; rw [e, hlow]; omega
    have h2 : p ≠ c := by
      intro e; apply hu'; rw [e]; exact hc
    simp [h1, h2]
  · rw [toLower_eq_self hc]

theorem likeMatch_percent (s : List Char) : likeMatch ['%'] s = true := by
  show (List.range (s.length + 1)).any (fun i => likeMatch [] (s.drop i)) = true
  rw [List.any_eq_true]
  exact ⟨s.length, List.mem_range.mpr (Nat.lt_succ_self _),
    by simp [likeMatch, List.drop_length]⟩

theorem likeMatch_append_percent (p : List Char)
    (hp : ∀ ch ∈ p, ch ≠ '%' ∧ ch ≠ '_' ∧ ch.isAlpha = false) (s : List Char) :
    likeMatch (p ++ ['%']) s = p.isPrefixOf s := by
  induction p generalizing s with
  | nil => simpa using likeMatch_percent s
  | cons a ps ih =>
    obtain ⟨ha1, ha2, ha3⟩ := hp a (List.mem_cons_self a ps)
    have hps : ∀ ch ∈ ps, ch ≠ '%' ∧ ch ≠ '_' ∧ ch.isAlpha = false :=
      fun ch hch => hp ch (List.mem_cons_of_mem a hch)
    cases s with
    | nil =>
      simp [likeMatch, List.isPrefixOf, ha1]
    | cons c cs =>
      simp only [List.cons_append, likeMatch, List.isPrefixOf]
      rw [if_neg ha1, if_neg ha2, toLower_beq_of_not_alpha ha3 c, List.append_eq, ih hps cs]

/- ## Helper lemmas: lists -/

theorem filter_map_pres {α : Type} (f : α → α) (q : α → Bool) (l : List α)
    (h : ∀ x, q (f x) = q x) : (l.map f).filter q = (l.filter q).map f := by
  induction l with
  | nil => rfl
  | cons x xs ih =>
    by_cases hx : q x = true
    · simp [List.filter, hx, h x, ih]
    · simp only [Bool.not_eq_true] at hx
      simp [List.filter, hx, h x, ih]

theorem map_map_pres {α β : Type} (f : α → α) (g : α → β) (l : List α)
    (h : ∀ x, g (f x) = g x) : (l.map f).map g = l.map g := by
  induction l with
  | nil => rfl
  | cons x xs ih => simp [h x, ih]

/- ## Helper lemmas: structure of `generate_bill` -/

theorem generate_bill_callLogs (c : Nat) (p now : String) (db : DB) (fail : Nat → Bool) :
    (generate_bill c p now db fail).2.callLogs = db.callLogs := by
  simp only [generate_bill]
  repeat' split <;> try rfl

theorem matchingCalls_congr (c : Nat) (p : String) (db db' : DB)
    (h : db'.callLogs = db.callLogs) : matchingCalls c p db' = matchingCalls c p db := by
  unfold matchingCalls
  rw [h]

theorem generate_bill_of_matching_nil (c : Nat) (p now : String) (db : DB)
    (h : matchingCalls c p db = []) :
    generate_bill c p now db noFail = (.noActivity, db) := by
  unfold generate_bill
  simp [noFail, h]

theorem updBill_bill_id (n : Nat) (q : ℚ) (now : String) (t : Nat) (x : Bill) :
    (updBill n q now t x).bill_id = x.bill_id := by
  unfold updBill
  split <;> rfl

theorem billKey_updBill (c : Nat) (p : String) (n : Nat) (q : ℚ) (now : String)
    (t : Nat) (x : Bill) : billKey c p (updBill n q now t x) = billKey c p x := by
  unfold updBill billKey
  split <;> rfl

theorem generate_bill_insert (c : Nat) (p now : String) (db : DB)
    (hn : (matchingCalls c p db).length ≠ 0)
    (hb : (billsFor c p db).head? = none) :
    generate_bill c p now db noFail =
      (BillResult.generated db.nextBillId (matchingCalls c p db).length
          ((matchingCalls c p db).map CallLog.cost).sum,
       { db with
          billHistory := db.billHistory ++
            [{ bill_id := db.nextBillId, customer_id := c, billing_period := p,
               total_calls := (matchingCalls c p db).length,
               total_charge := ((matchingCalls c p db).map CallLog.cost).sum,
               date_generated := now }],
          nextBillId := db.nextBillId + 1 }) := by
  unfold generate_bill
  simp [noFail, hn, hb]

theorem generate_bill_update (c : Nat) (p now : String) (db : DB) (b : Bill)
    (hn : (matchingCalls c p db).length ≠ 0)
    (hb : (billsFor c p db).head? = some b) :
    generate_bill c p now db noFail =
      (BillResult.updated b.bill_id (matchingCalls c p db).length
          ((matchingCalls c p db).map CallLog.cost).sum,
       { db with
          billHistory := db.billHistory.map
            (updBill (matchingCalls c p db).length
              ((matchingCalls c p db).map CallLog.cost).sum now b.bill_id) }) := by
  unfold generate_bill
  simp [noFail, hn, hb]

/- ## Claim theorems: billing engine -/

/-- C6: when zero call records of customer `c` match period `p`,
`generate_bill c p` returns the no-activity result and performs no
write — the database, in particular `BillHistory`, is unchanged. -/
theorem generate_bill_zero_matches_no_write (c : Nat) (p now : String) (db : DB)
    (h : matchingCalls c p db = []) :
    (generate_bill c p now db noFail).1 = BillResult.noActivity ∧
    (generate_bill c p now db noFail).2 = db := by
  rw [generate_bill_of_matching_nil c p now db h]
  exact ⟨rfl, rfl⟩

/-- Witness for C6 at a concrete database with no matching calls. -/
theorem generate_bill_zero_matches_no_write_witness :
    matchingCalls 1 "2024-05" (⟨[], [], [], 1, 1⟩ : DB) = [] ∧
    ((generate_bill 1 "2024-05" "2024-06-01 00:00:00" (⟨[], [], [], 1, 1⟩ : DB) noFail).1 =
        BillResult.noActivity ∧
      (generate_bill 1 "2024-05" "2024-06-01 00:00:00" (⟨[], [], [], 1, 1⟩ : DB) noFail).2 =
        (⟨[], [], [], 1, 1⟩ : DB)) :=
  ⟨rfl, generate_bill_zero_matches_no_write 1 "2024-05" "2024-06-01 00:00:00" _ rfl⟩

/-- C3 counterexample: for a customer id (999) that references no
existing customer, `generate_bill` does NOT report `CustomerNotFound`;
it reports the no-activity result (the code never checks customer
existence).  The no-write half of the claim does hold. -/
theorem generate_bill_missing_customer_counterexample :
    (∀ cu ∈ (⟨[], [], [], 1, 1⟩ : DB).customers, cu.customer_id ≠ 999) ∧
    (generate_bill 999 "2024-05" "2024-06-01 00:00:00" (⟨[], [], [], 1, 1⟩ : DB) noFail).1 =
      BillResult.noActivity ∧
    (generate_bill 999 "2024-05" "2024-06-01 00:00:00" (⟨[], [], [], 1, 1⟩ : DB) noFail).1 ≠
      BillResult.customerNotFound ∧
    (generate_bill 999 "2024-05" "2024-06-01 00:00:00" (⟨[], [], [], 1, 1⟩ : DB) noFail).2 =
      (⟨[], [], [], 1, 1⟩ : DB) := by
  refine ⟨by simp, rfl, by decide, rfl⟩

/-- C3 (amended): when the customer id references no existing customer
and the call log satisfies referential integrity (so the id owns no call
records), `generate_bill` reports no-activity — not `CustomerNotFound` —
and performs no write to `BillHistory`. -/
theorem generate_bill_missing_customer_no_write (c : Nat) (p now : String) (db : DB)
    (hnc : ∀ cu ∈ db.customers, cu.customer_id ≠ c)
    (href : ∀ r ∈ db.callLogs, ∃ cu ∈ db.customers, cu.customer_id = r.customer_id) :
    (generate_bill c p now db noFail).1 = BillResult.noActivity ∧
    (generate_bill c p now db noFail).2 = db := by
  have hm : matchingCalls c p db = [] := by
    unfold matchingCalls
    rw [List.filter_eq_nil_iff]
    intro r hr
    obtain ⟨cu, hcu, he⟩ := href r hr
    have hne : r.customer_id ≠ c := by rw [← he]; exact hnc cu hcu
    simp [hne]
  rw [generate_bill_of_matching_nil c p now db hm]
  exact ⟨rfl, rfl⟩

/-- Witness for the amended C3 at a database holding a real customer and
one of that customer's calls, queried with the absent id 999. -/
theorem generate_bill_missing_customer_no_write_witness :
    (∀ cu ∈ (⟨[⟨1, "555", "Ann", "Main St", "Standard"⟩],
        [⟨1, 1, "777", "2024-05-01 10:00:00", 60, 3⟩], [], 2, 1⟩ : DB).customers,
      cu.customer_id ≠ 999) ∧
    (∀ r ∈ (⟨[⟨1, "555", "Ann", "Main St", "Standard"⟩],
        [⟨1, 1, "777", "2024-05-01 10:00:00", 60, 3⟩], [], 2, 1⟩ : DB).callLogs,
      ∃ cu ∈ (⟨[⟨1, "555", "Ann", "Main St", "Standard"⟩],
        [⟨1, 1, "777", "2024-05-01 10:00:00", 60, 3⟩], [], 2, 1⟩ : DB).customers,
        cu.customer_id = r.customer_id) ∧
    (generate_bill 999 "2024-05" "2024-06-01 00:00:00"
        (⟨[⟨1, "555", "Ann", "Main St", "Standard"⟩],
          [⟨1, 1, "777", "2024-05-01 10:00:00", 60, 3⟩], [], 2, 1⟩ : DB) noFail).1 =
      BillResult.noActivity :=
  ⟨by simp, by simp,
    (generate_bill_missing_customer_no_write 999 "2024-05" "2024-06-01 00:00:00" _
      (by simp) (by simp)).1⟩

/-- C5: the cost computed and stored by `log_call` for a duration `d > 0`
is `d` times the customer's resolved rate: the configured rate when the
stored plan name is known, and the fixed fallback rate
`DEFAULT_RATE_PER_SECOND` when it is not; rate resolution never fails,
so the call is always logged. -/
theorem log_call_cost (phone callee now : String) (d : Int) (db : DB)
    (fail : Nat → Bool) (cu : Customer)
    (_hd : 0 < d)
    (h0 : fail 0 = false) (h1 : fail 1 = false)
    (hcu : (db.customers.filter (fun x => x.phone_number == phone)).head? = some cu) :
    (log_call phone callee d now db fail).1 = true ∧
    (log_call phone callee d now db fail).2.callLogs = db.callLogs ++
      [{ call_id := db.nextCallId, customer_id := cu.customer_id,
         callee_number := callee, start_time := now, duration_seconds := d,
         cost := (d : ℚ) * ((RATE_PLANS.lookup cu.rate_plan).getD DEFAULT_RATE_PER_SECOND) }] ∧
    (∀ q, RATE_PLANS.lookup cu.rate_plan = some q →
      (d : ℚ) * ((RATE_PLANS.lookup cu.rate_plan).getD DEFAULT_RATE_PER_SECOND) = d * q) ∧
    (RATE_PLANS.lookup cu.rate_plan = none →
      (d : ℚ) * ((RATE_PLANS.lookup cu.rate_plan).getD DEFAULT_RATE_PER_SECOND) =
        (d : ℚ) * DEFAULT_RATE_PER_SECOND) := by
  refine ⟨?_, ?_, ?_, ?_⟩
  · simp [log_call, h0, h1, hcu]
  · simp [log_call, h0, h1, hcu]
  · intro q hq; rw [hq]; rfl
  · intro hq; rw [hq]; rfl

/-- Witness for C5: a 60-second call by a customer on the Standard
plan. -/
theorem log_call_cost_witness :
    (0 : Int) < 60 ∧ noFail 0 = false ∧ noFail 1 = false ∧
    ((⟨[⟨1, "555", "Ann", "Main St", "Standard"⟩], [], [], 1, 1⟩ : DB).customers.filter
        (fun x => x.phone_number == "555")).head? =
      some ⟨1, "555", "Ann", "Main St", "Standard"⟩ ∧
    (log_call "555" "777" 60 "2024-05-01 10:00:00"
        (⟨[⟨1, "555", "Ann", "Main St", "Standard"⟩], [], [], 1, 1⟩ : DB) noFail).1 = true :=
  ⟨by decide, rfl, rfl, rfl,
    (log_call_cost "555" "777" "2024-05-01 10:00:00" 60
      (⟨[⟨1, "555", "Ann", "Main St", "Standard"⟩], [], [], 1, 1⟩ : DB) noFail
      ⟨1, "555", "Ann", "Main St", "Standard"⟩ (by decide) rfl rfl rfl).1⟩

/-- C7: `generate_bill` is atomic with respect to persistence faults: it
reports `storageFailure` exactly when some executed database step
faults, and whenever it reports `storageFailure` the database is exactly
as it was before the invocation — no partial write survives. -/
theorem generate_bill_storage_failure_atomic (c : Nat) (p now : String) (db : DB)
    (fail : Nat → Bool) :
    ((generate_bill c p now db fail).1 = BillResult.storageFailure →
      (generate_bill c p now db fail).2 = db) ∧
    ((generate_bill c p now db fail).1 = BillResult.storageFailure ↔
      (fail 0 = true ∨ fail 1 = true ∨
        ((matchingCalls c p db).length ≠ 0 ∧
          (fail 2 = true ∨ fail 3 = true ∨ fail 4 = true)))) := by
  cases h0 : fail 0 <;> cases h1 : fail 1 <;> cases h2 : fail 2 <;>
    cases h3 : fail 3 <;> cases h4 : fail 4 <;>
    by_cases hn : (matchingCalls c p db).length = 0 <;>
    rcases hb : (billsFor c p db).head? with _ | b <;>
    simp [generate_bill, h0, h1, h2, h3, h4, hn, hb]

/-- C4 counterexample: with the period string `"%"` (a SQL LIKE
wildcard), the code bills the one existing call — whose timestamp does
not begin with `"%"` — so "included iff the start time begins with the
period" is false as stated for arbitrary period strings. -/
theorem generate_bill_prefix_counterexample :
    ((generate_bill 1 "%" "2024-06-01 00:00:00"
        (⟨[⟨1, "555", "Ann", "Main St", "Standard"⟩],
          [⟨1, 1, "777", "2024-05-01 10:00:00", 120, 6⟩], [], 2, 1⟩ : DB) noFail).1.info.map
      (fun x => x.2.1)) = some 1 ∧
    ((⟨[⟨1, "555", "Ann", "Main St", "Standard"⟩],
        [⟨1, 1, "777", "2024-05-01 10:00:00", 120, 6⟩], [], 2, 1⟩ : DB).callLogs.filter
      (fun r => r.customer_id == 1 && ("%".data.isPrefixOf r.start_time.data))) = [] := by
  constructor
  · rfl
  · rfl

/-- C4 (amended): provided the period string contains no SQL LIKE
wildcard (`%`, `_`) and no ASCII letter (LIKE compares letters
case-insensitively), the bill aggregates exactly the call records owned
by `c` whose start timestamp has `p` as a string prefix: a record is
included iff its start time begins with `p`, and the reported totals are
their count and the sum of their stored costs. -/
theorem generate_bill_prefix_aggregation (c : Nat) (p now : String) (db : DB)
    (hp : ∀ ch ∈ p.data, ch ≠ '%' ∧ ch ≠ '_' ∧ ch.isAlpha = false) :
    matchingCalls c p db =
      db.callLogs.filter (fun r => r.customer_id == c && p.data.isPrefixOf r.start_time.data) ∧
    (matchingCalls c p db = [] →
      (generate_bill c p now db noFail).1 = BillResult.noActivity) ∧
    (matchingCalls c p db ≠ [] →
      ∃ i, (generate_bill c p now db noFail).1.info =
        some (i, (matchingCalls c p db).length,
          ((matchingCalls c p db).map CallLog.cost).sum)) := by
  refine ⟨?_, ?_, ?_⟩
  · unfold matchingCalls
    apply List.filter_congr
    intro r _
    rw [likeMatch_append_percent p.data hp r.start_time.data]
  · intro h
    exact (congrArg Prod.fst (generate_bill_of_matching_nil c p now db h)).trans rfl
  · intro h
    have hn : (matchingCalls c p db).length ≠ 0 := by
      simpa [List.length_eq_zero] using h
    unfold generate_bill
    rcases hb : (billsFor c p db).head? with _ | b <;>
      simp [noFail, hb, hn, BillResult.info]

/-- Witness for the amended C4: period `"2024-05"` (no wildcards, no
letters) over a database with one in-period call and one out-of-period
call. -/
theorem generate_bill_prefix_aggregation_witness :
    (∀ ch ∈ ("2024-05").data, ch ≠ '%' ∧ ch ≠ '_' ∧ ch.isAlpha = false) ∧
    matchingCalls 1 "2024-05"
        (⟨[⟨1, "555", "Ann", "Main St", "Standard"⟩],
          [⟨1, 1, "777", "2024-05-01 10:00:00", 120, 6⟩,
           ⟨2, 1, "888", "2024-06-02 11:00:00", 60, 3⟩], [], 3, 1⟩ : DB) =
      (⟨[⟨1, "555", "Ann", "Main St", "Standard"⟩],
          [⟨1, 1, "777", "2024-05-01 10:00:00", 120, 6⟩,
           ⟨2, 1, "888", "2024-06-02 11:00:00", 60, 3⟩], [], 3, 1⟩ : DB).callLogs.filter
        (fun r => r.customer_id == 1 && ("2024-05").data.isPrefixOf r.start_time.data) :=
  ⟨by decide,
    (generate_bill_prefix_aggregation 1 "2024-05" "2024-06-01 00:00:00"
      (⟨[⟨1, "555", "Ann", "Main St", "Standard"⟩],
        [⟨1, 1, "777", "2024-05-01 10:00:00", 120, 6⟩,
         ⟨2, 1, "888", "2024-06-02 11:00:00", 60, 3⟩], [], 3, 1⟩ : DB) (by decide)).1⟩

/-- C1: generating a bill twice in succession for the same customer and
period, with no call records logged in between, reports the same bill
identity and identical totals both times; whenever the first run
produced a bill the second run updates that same row in place (an
`updated` outcome with the same id and totals), the second run inserts
no row (the `bill_id` column is unchanged), and at most one
`BillHistory` row for the pair remains, given the data-model invariant
that at most one such row existed before. -/
theorem generate_bill_idempotent (c : Nat) (p now1 now2 : String) (db : DB)
    (hkey : (billsFor c p db).length ≤ 1) :
    ((generate_bill c p now1 db noFail).1).info =
      ((generate_bill c p now2 (generate_bill c p now1 db noFail).2 noFail).1).info ∧
    (∀ x, ((generate_bill c p now1 db noFail).1).info = some x →
      (generate_bill c p now2 (generate_bill c p now1 db noFail).2 noFail).1 =
        BillResult.updated x.1 x.2.1 x.2.2) ∧
    (billsFor c p
      (generate_bill c p now2 (generate_bill c p now1 db noFail).2 noFail).2).length ≤ 1 ∧
    (generate_bill c p now2 (generate_bill c p now1 db noFail).2 noFail).2.billHistory.map
        Bill.bill_id =
      (generate_bill c p now1 db noFail).2.billHistory.map Bill.bill_id := by
  by_cases hn : (matchingCalls c p db).length = 0
  · have hmn : matchingCalls c p db = [] := List.length_eq_zero.mp hn
    have e1 := generate_bill_of_matching_nil c p now1 db hmn
    have e2 := generate_bill_of_matching_nil c p now2 db hmn
    simp only [e1, e2, BillResult.info]
    simp [hkey]
  · set n := (matchingCalls c p db).length with hn_def
    set q := ((matchingCalls c p db).map CallLog.cost).sum with hq_def
    rcases hb : (billsFor c p db).head? with _ | b
    · -- first run inserts a fresh row, second run updates it in place
      have e1 := generate_bill_insert c p now1 db hn hb
      set B : Bill :=
        { bill_id := db.nextBillId, customer_id := c, billing_period := p,
          total_calls := n, total_charge := q, date_generated := now1 } with hB
      set db1 : DB :=
        { db with billHistory := db.billHistory ++ [B],
                  nextBillId := db.nextBillId + 1 } with hdb1
      have hm1 : matchingCalls c p db1 = matchingCalls c p db := rfl
      have hn1 : (matchingCalls c p db1).length ≠ 0 := by rw [hm1]; exact hn
      have hbf : billsFor c p db = [] := by rwa [List.head?_eq_none_iff] at hb
      have hkeyB : billKey c p B = true := by simp [billKey, hB]
      have hbf1 : billsFor c p db1 = [B] := by
        have hh : db1.billHistory = db.billHistory ++ [B] := rfl
        unfold billsFor at hbf ⊢
        rw [hh, List.filter_append, hbf, List.filter_cons, if_pos hkeyB]
        rfl
      have hb1 : (billsFor c p db1).head? = some B := by rw [hbf1]; rfl
      have e2 := generate_bill_update c p now2 db1 B hn1 hb1
      rw [hm1, ← hn_def, ← hq_def] at e2
      have hBid : B.bill_id = db.nextBillId := rfl
      rw [hBid] at e2
      have h3 : (billsFor c p
          ({ db1 with billHistory :=
              db1.billHistory.map (updBill n q now2 db.nextBillId) } : DB)).length ≤ 1 := by
        unfold billsFor
        have hh : ({ db1 with billHistory :=
            db1.billHistory.map (updBill n q now2 db.nextBillId) } : DB).billHistory =
            db1.billHistory.map (updBill n q now2 db.nextBillId) := rfl
        rw [hh, filter_map_pres _ _ _ (fun x => billKey_updBill c p n q now2 db.nextBillId x)]
        rw [List.length_map]
        have := hbf1
        unfold billsFor at this
        rw [this]
        simp
      have h4 : (({ db1 with billHistory :=
            db1.billHistory.map (updBill n q now2 db.nextBillId) } : DB)).billHistory.map
            Bill.bill_id = db1.billHistory.map Bill.bill_id := by
        exact map_map_pres _ _ _ (fun x => updBill_bill_id n q now2 db.nextBillId x)
      simp only [e1, e2, BillResult.info]
      refine ⟨trivial, ?_, h3, h4⟩
      intro x hx
      have hx' := Option.some.inj hx
      subst hx'
      rfl
    · -- both runs update the same existing row
      have e1 := generate_bill_update c p now1 db b hn hb
      set f1 := updBill n q now1 b.bill_id with hf1
      set db1 : DB := { db with billHistory := db.billHistory.map f1 } with hdb1
      have hm1 : matchingCalls c p db1 = matchingCalls c p db := rfl
      have hn1 : (matchingCalls c p db1).length ≠ 0 := by rw [hm1]; exact hn
      have hbf1 : billsFor c p db1 = (billsFor c p db).map f1 := by
        unfold billsFor
        have hh : db1.billHistory = db.billHistory.map f1 := rfl
        rw [hh, filter_map_pres _ _ _
          (fun x => by rw [hf1]; exact billKey_updBill c p n q now1 b.bill_id x)]
      have hb1 : (billsFor c p db1).head? = some (f1 b) := by
        rw [hbf1, List.head?_map, hb]
        rfl
      have e2 := generate_bill_update c p now2 db1 (f1 b) hn1 hb1
      rw [hm1, ← hn_def, ← hq_def] at e2
      have hfb : (f1 b).bill_id = b.bill_id := by rw [hf1]; exact updBill_bill_id _ _ _ _ _
      rw [hfb] at e2
      have h3 : (billsFor c p
          ({ db1 with billHistory :=
              db1.billHistory.map (updBill n q now2 b.bill_id) } : DB)).length ≤ 1 := by
        unfold billsFor
        have hh : ({ db1 with billHistory :=
            db1.billHistory.map (updBill n q now2 b.bill_id) } : DB).billHistory =
            db1.billHistory.map (updBill n q now2 b.bill_id) := rfl
        rw [hh, filter_map_pres _ _ _ (fun x => billKey_updBill c p n q now2 b.bill_id x)]
        rw [List.length_map]
        have hlen : (billsFor c p db1).length = (billsFor c p db).length := by
          rw [hbf1, List.length_map]
        unfold billsFor at hlen
        rw [hlen]
        exact hkey
      have h4 : (({ db1 with billHistory :=
            db1.billHistory.map (updBill n q now2 b.bill_id) } : DB)).billHistory.map
            Bill.bill_id = db1.billHistory.map Bill.bill_id := by
        exact map_map_pres _ _ _ (fun x => updBill_bill_id n q now2 b.bill_id x)
      simp only [e1, e2, BillResult.info]
      refine ⟨trivial, ?_, h3, h4⟩
      intro x hx
      have hx' := Option.some.inj hx
      subst hx'
      rfl

/-- Witness for C1: a database containing one customer with one call in
period `"2024-05"` and an empty `BillHistory`. -/
theorem generate_bill_idempotent_witness :
    (billsFor 1 "2024-05"
        (⟨[⟨1, "555", "Ann", "Main St", "Standard"⟩],
          [⟨1, 1, "777", "2024-05-01 10:00:00", 120, 6⟩], [], 2, 1⟩ : DB)).length ≤ 1 ∧
    ((generate_bill 1 "2024-05" "2024-06-01 00:00:00"
        (⟨[⟨1, "555", "Ann", "Main St", "Standard"⟩],
          [⟨1, 1, "777", "2024-05-01 10:00:00", 120, 6⟩], [], 2, 1⟩ : DB) noFail).1).info =
      ((generate_bill 1 "2024-05" "2024-06-02 00:00:00"
        (generate_bill 1 "2024-05" "2024-06-01 00:00:00"
          (⟨[⟨1, "555", "Ann", "Main St", "Standard"⟩],
            [⟨1, 1, "777", "2024-05-01 10:00:00", 120, 6⟩], [], 2, 1⟩ : DB) noFail).2
        noFail).1).info :=
  ⟨by decide,
    (generate_bill_idempotent 1 "2024-05" "2024-06-01 00:00:00" "2024-06-02 00:00:00"
      (⟨[⟨1, "555", "Ann", "Main St", "Standard"⟩],
        [⟨1, 1, "777", "2024-05-01 10:00:00", 120, 6⟩], [], 2, 1⟩ : DB) (by decide)).1⟩

/- ## Claim theorems: selection disambiguation -/

/-- C2: from an idle state (no stored timer, no pending callback), a
single click that is left alone until the debounce callback fires yields
exactly one `deleteIntent` for the clicked row and nothing else; a
single click followed by a double-click before the callback fires yields
exactly one `updateIntent` for the row and zero `deleteIntent`s — the
pending timer is cancelled before it can fire, so the later `timerFire`
is a no-op. -/
theorem single_gesture_exclusive (s : AppState) (r : Row)
    (ht : s.timer = none) (hs : s.scheduled = []) :
    (processEvents s [Event.select (some r), Event.timerFire s.nextHandle]).2 =
      [Intent.deleteIntent r.id] ∧
    (processEvents s [Event.select (some r), Event.doubleClick (some r),
        Event.timerFire s.nextHandle]).2 = [Intent.updateIntent r.id] := by
  constructor <;>
    simp [processEvents, step, handle_treeview_select, handle_double_click_update,
      execute_single_click_delete, clear_customer_entries, ht, hs]

/-- Witness for C2 at the initial application state and a concrete row. -/
theorem single_gesture_exclusive_witness :
    initialAppState.timer = none ∧ initialAppState.scheduled = [] ∧
    ((processEvents initialAppState
        [Event.select (some ⟨7, "555", "Ann", "Main St", "Standard"⟩),
         Event.timerFire initialAppState.nextHandle]).2 = [Intent.deleteIntent 7] ∧
      (processEvents initialAppState
        [Event.select (some ⟨7, "555", "Ann", "Main St", "Standard"⟩),
         Event.doubleClick (some ⟨7, "555", "Ann", "Main St", "Standard"⟩),
         Event.timerFire initialAppState.nextHandle]).2 = [Intent.updateIntent 7]) :=
  ⟨rfl, rfl,
    single_gesture_exclusive initialAppState ⟨7, "555", "Ann", "Main St", "Standard"⟩ rfl rfl⟩

/-- C8: from an idle state, selecting `r1`, then reselecting `r2` before
the first debounce callback fires, then letting the timers elapse yields
exactly one `deleteIntent` for `r2` and no intent for `r1`: the
reselection cancels the first timer (whose `timerFire` is then a no-op)
and restarts the debounce window. -/
theorem reselect_restarts_debounce (s : AppState) (r1 r2 : Row)
    (ht : s.timer = none) (hs : s.scheduled = []) :
    (processEvents s [Event.select (some r1), Event.select (some r2),
        Event.timerFire s.nextHandle, Event.timerFire (s.nextHandle + 1)]).2 =
      [Intent.deleteIntent r2.id] := by
  simp [processEvents, step, handle_treeview_select, execute_single_click_delete,
    clear_customer_entries, ht, hs]

/-- Witness for C8 at the initial application state and two concrete
rows. -/
theorem reselect_restarts_debounce_witness :
    initialAppState.timer = none ∧ initialAppState.scheduled = [] ∧
    (processEvents initialAppState
        [Event.select (some ⟨3, "111", "Bea", "Oak Ave", "Premium"⟩),
         Event.select (some ⟨4, "222", "Cal", "Elm St", "Business"⟩),
         Event.timerFire initialAppState.nextHandle,
         Event.timerFire (initialAppState.nextHandle + 1)]).2 =
      [Intent.deleteIntent 4] :=
  ⟨rfl, rfl,
    reselect_restarts_debounce initialAppState ⟨3, "111", "Bea", "Oak Ave", "Premium"⟩
      ⟨4, "222", "Cal", "Elm St", "Business"⟩ rfl rfl⟩

/-- C9 counterexample: in a reachable idle state (reached by a single
click whose debounce fired, leaving delete mode with
`selected_customer_id = 5`), a `doubleClick` that identifies no row
emits no intent and raises no error, but it does NOT leave the session
state unchanged: it resets `selected_customer_id` from 5 to 0 (the
handler falls back to `clear_customer_entries`). -/
theorem idle_activation_no_row_counterexample :
    ((processEvents initialAppState
        [Event.select (some ⟨5, "999", "Dee", "Pine Rd", "Standard"⟩),
         Event.timerFire 0]).1).timer = none ∧
    ((processEvents initialAppState
        [Event.select (some ⟨5, "999", "Dee", "Pine Rd", "Standard"⟩),
         Event.timerFire 0]).1).selected_customer_id = 5 ∧
    (step ((processEvents initialAppState
        [Event.select (some ⟨5, "999", "Dee", "Pine Rd", "Standard"⟩),
         Event.timerFire 0]).1) (Event.doubleClick none)).2 = [] ∧
    (step ((processEvents initialAppState
        [Event.select (some ⟨5, "999", "Dee", "Pine Rd", "Standard"⟩),
         Event.timerFire 0]).1) (Event.doubleClick none)).1.selected_customer_id = 0 := by
  refine ⟨rfl, rfl, rfl, rfl⟩

/-- C9 (amended): a `doubleClick` carrying no row id, delivered in a
state with no pending timer, emits no intent and raises no error, but
instead of being a pure no-op it behaves exactly like an explicit clear:
the handler runs `clear_customer_entries`, resetting the selected id,
the form fields and the button states. -/
theorem idle_activation_no_row_clears (s : AppState) (ht : s.timer = none) :
    step s (Event.doubleClick none) = (clear_customer_entries s, []) := by
  simp [step, handle_double_click_update, ht]

/-- Witness for the amended C9 at the initial application state. -/
theorem idle_activation_no_row_clears_witness :
    initialAppState.timer = none ∧
    step initialAppState (Event.doubleClick none) =
      (clear_customer_entries initialAppState, []) :=
  ⟨rfl, idle_activation_no_row_clears initialAppState rfl⟩

theorem clear_customer_entries_timerInv (s : AppState) (h : timerInv s) :
    timerInv (clear_customer_entries s) := by
  unfold timerInv at h ⊢
  unfold clear_customer_entries
  cases hts : s.timer with
  | none => simpa [hts] using h
  | some t =>
    rw [hts] at h
    simp [hts, h]

theorem execute_single_click_delete_timerInv (s : AppState) (h : s.scheduled = []) :
    timerInv (execute_single_click_delete s).1 := by
  unfold execute_single_click_delete
  cases hsel : s.treeSel with
  | none =>
    simp only [hsel]
    unfold clear_customer_entries timerInv
    cases hts : s.timer <;> simp [h, hts]
  | some r =>
    simp only [hsel]
    unfold timerInv
    simp [h]

theorem step_timerInv (s : AppState) (e : Event) (h : timerInv s) :
    timerInv (step s e).1 := by
  unfold timerInv at h
  cases e with
  | select sel =>
    show timerInv (handle_treeview_select { s with treeSel := sel }).1
    unfold handle_treeview_select
    cases sel with
    | none =>
      exact clear_customer_entries_timerInv _ (by simpa [timerInv] using h)
    | some r =>
      cases hts : s.timer with
      | none =>
        rw [hts] at h
        simp at h
        simp [timerInv, hts, h]
      | some t =>
        rw [hts] at h
        simp at h
        simp [timerInv, hts, h]
  | doubleClick rowUnder =>
    show timerInv (handle_double_click_update rowUnder s).1
    unfold handle_double_click_update
    cases hts : s.timer with
    | none =>
      cases rowUnder with
      | none => exact clear_customer_entries_timerInv _ (by simpa [timerInv] using h)
      | some r => simpa [timerInv, hts] using h
    | some t =>
      rw [hts] at h
      simp at h
      cases rowUnder with
      | none =>
        apply clear_customer_entries_timerInv
        simp [timerInv, h]
      | some r => simp [timerInv, h]
  | clearClick =>
    exact clear_customer_entries_timerInv _ (by simpa [timerInv] using h)
  | timerFire t =>
    show timerInv (if t ∈ s.scheduled then
      execute_single_click_delete { s with scheduled := s.scheduled.erase t } else (s, [])).1
    by_cases hmem : t ∈ s.scheduled
    · rw [if_pos hmem]
      apply execute_single_click_delete_timerInv
      cases hts : s.timer with
      | none =>
        rw [hts] at h
        simp [h] at hmem
      | some u =>
        rw [hts] at h
        rw [h] at hmem
        simp at hmem
        subst hmem
        simp [h]
    · rw [if_neg hmem]
      simpa [timerInv] using h

theorem processEvents_timerInv (es : List Event) (s : AppState) (h : timerInv s) :
    timerInv (processEvents s es).1 := by
  induction es generalizing s with
  | nil => simpa [processEvents] using h
  | cons e es ih =>
    simp only [processEvents]
    exact ih (step s e).1 (step_timerInv s e h)

/-- C10: in every state reachable from the initial application state by
any sequence of selection events, at most one single-click debounce
callback is pending in the event loop, and the pending-callback set is
exactly what the `self.timer` field records — in particular the field is
`none` exactly when no decision is pending, because every handler
cancels the previously stored handle before scheduling a new one or
nulling the field. -/
theorem reachable_timer_invariant (es : List Event) :
    (processEvents initialAppState es).1.scheduled =
      (processEvents initialAppState es).1.timer.toList ∧
    (processEvents initialAppState es).1.scheduled.length ≤ 1 ∧
    ((processEvents initialAppState es).1.timer = none ↔
      (processEvents initialAppState es).1.scheduled = []) := by
  have h : timerInv (processEvents initialAppState es).1 :=
    processEvents_timerInv es initialAppState rfl
  unfold timerInv at h
  refine ⟨h, ?_, ?_⟩
  · rw [h]
    cases (processEvents initialAppState es).1.timer <;> simp
  · rw [h]
    cases (processEvents initialAppState es).1.timer <;> simp

end TelephoneBilling
